import Mathlib

/-!
Shallow embedding of `src/sessions.js` (session lifecycle and registry
subsystem of the whatsapp-api repository).

The source manages a process-wide `Map` from session id to a live external
client handle, with operations `validateSession`, `setupSession`,
`restoreSessions`, `deleteSessionFolder`, `deleteSession`, `flushSessions`
and a webhook event bridge installed in `setupSession`.

Modelling choices, all traced from the source:
* The external client handle is a structure of behaviour oracles: the
  outcome of `waitForNestedObject(client, 'pupPage')`, the number of failing
  `pupPage.evaluate` attempts before the first success, and the outcomes of
  `getState()`, `logout()` and `destroy()`.
* The filesystem is an oracle giving `fs.promises.realpath` resolution and
  the outcome of `fs.promises.rm`.
* The registry `Map` is an association list in insertion order; `set` is
  only ever called after a negative `has` check (sessions.js line 79), so
  it appends.
* Thrown JS exceptions are modelled as an `Option String` error component
  (or `Except`), carrying the error message; observable side effects
  (logout/destroy calls, recursive removal, map deletion) are collected in
  an ordered trace.
-/

deriving instance DecidableEq for Except

namespace Sessions

/-- JS `String.prototype.startsWith`, at the character level (the ids and
paths involved are plain text, where character-prefix and JS
code-unit-prefix agree). -/
def strStartsWith (s pre : String) : Bool :=
  pre.data.isPrefixOf s.data

/-- Drop the first `n` characters of a string (used for the capture group
of `/^session-(.+)$/`). -/
def strDrop (s : String) (n : Nat) : String :=
  ⟨s.data.drop n⟩

/-- The `{ success, state, message }` record built by `validateSession`
(sessions.js line 10) and consumed by `deleteSession`. -/
structure ValidationResult where
  success : Bool
  state : Option String
  message : String
deriving Repr, DecidableEq

/-- Behaviour oracle for one external client handle (`whatsapp-web.js`
`Client`): outcome of the bounded `waitForNestedObject(client, 'pupPage')`
wait, the number of `pupPage.evaluate('1')` attempts that throw before the
first success, and the outcomes of `getState()`, `logout()` and
`destroy()`.  Errors carry the JS error's `.message` text. -/
structure Client where
  waitPupPage : Except String Unit
  evalFailures : Nat
  getState : Except String String
  logoutResult : Except String Unit
  destroyResult : Except String Unit
deriving Repr, DecidableEq

/-- The process-wide `sessions` Map (sessions.js line 3), as an association
list in insertion order. -/
abbrev Registry := List (String × Client)

/-- `sessions.get(sid)`, `none` standing for JS `undefined`: the value at
the first (in a `Map`, the only) entry with the given key. -/
def mapGet : Registry → String → Option Client
  | [], _ => none
  | p :: rest, sid => if p.1 = sid then some p.2 else mapGet rest sid

/-- `sessions.has(sid)` (also covers the `!sessions.get(sid)` falsiness
check on line 13: only truthy client objects are ever stored). -/
def mapHas (reg : Registry) (sid : String) : Bool :=
  (mapGet reg sid).isSome

/-- `sessions.set(sid, client)`; in the source it only runs after
`sessions.has(sid)` returned false, so it appends a fresh entry. -/
def mapSet (reg : Registry) (sid : String) (c : Client) : Registry :=
  reg ++ [(sid, c)]

/-- `sessions.delete(sid)`. -/
def mapDelete : Registry → String → Registry
  | [], _ => []
  | p :: rest, sid =>
    if p.1 = sid then mapDelete rest sid else p :: mapDelete rest sid

/-- Number of entries stored under a given id. -/
def countKey : Registry → String → Nat
  | [], _ => 0
  | p :: rest, sid => (if p.1 = sid then 1 else 0) + countKey rest sid

/-- Steps of `validateSession` observable against the client, in order:
the `waitForNestedObject` wait, each `pupPage.evaluate` attempt, and the
`getState()` query. -/
inductive VStep where
  | waitPupPage
  | evalAttempt
  | getState
deriving Repr, DecidableEq

/-- `validateSession(sessionId)` (sessions.js lines 8-49), returning the
`ValidationResult` together with the ordered trace of client-facing steps
performed.

Control flow traced from the source:
* line 13: no live handle → `session_not_found`, no waiting.
* lines 20-21: `await waitForNestedObject(client, 'pupPage').catch((err) =>
  { return {...} })` — the `return` returns from the **catch callback**,
  whose value becomes the (discarded) value of the awaited expression, so
  execution continues past this statement whether the wait succeeded or
  timed out.
* lines 24-31: retry `client.pupPage.evaluate('1')` until the first
  success, every failure caught and retried (modelled as `evalFailures`
  failing attempts followed by one success).
* lines 33-44: `getState()`, compared against the `'CONNECTED'` sentinel.
* lines 45-48: an exception escaping the above (in this model: a
  `getState()` rejection) is caught and converted to
  `{ success: false, state: null, message: error.message }`. -/
def validateSession (reg : Registry) (sid : String) :
    ValidationResult × List VStep :=
  match mapGet reg sid with
  | none => (⟨false, none, "session_not_found"⟩, [])
  | some client =>
    let tr := VStep.waitPupPage ::
      List.replicate (client.evalFailures + 1) VStep.evalAttempt ++
      [VStep.getState]
    match client.getState with
    | .error e => (⟨false, none, e⟩, tr)
    | .ok st =>
      if st ≠ "CONNECTED" then
        (⟨false, some st, "session_not_connected"⟩, tr)
      else
        (⟨true, some st, "session_connected"⟩, tr)

/-- Filesystem oracle: `fs.promises.realpath` (canonical resolution of a
path, or a thrown error such as ENOENT) and `fs.promises.rm(path,
{recursive: true, force: true})` (unit on success, or a thrown error). -/
structure Fs where
  realpath : String → Except String String
  rm : String → Except String Unit

/-- The template `‹sessionFolderPath›/session-‹sessionId›/` built on
sessions.js line 187. -/
def sessionDirPath (root sid : String) : String :=
  root ++ "/session-" ++ sid ++ "/"

/-- Observable destructive side effects of the teardown operations, in
execution order. -/
inductive Effect where
  | logout (sid : String)
  | destroy (sid : String)
  | rm (path : String)
  | mapDelete (sid : String)
deriving Repr, DecidableEq

/-- `deleteSessionFolder(sessionId)` (sessions.js lines 185-199): resolve
the target and the sessions root through `realpath`, throw
`'Invalid path'` unless the resolved target `startsWith` the resolved root
(note: the source appends **no** path separator to the resolved root
before the prefix test), then recursively remove the (unresolved) target
path.  Returns the removal effect, or the thrown error's message. -/
def deleteSessionFolder (fs : Fs) (root sid : String) :
    Except String (List Effect) :=
  let targetDirPath := sessionDirPath root sid
  match fs.realpath targetDirPath with
  | .error e => .error e
  | .ok resolvedTargetDirPath =>
    match fs.realpath root with
    | .error e => .error e
    | .ok resolvedSessionPath =>
      if ¬ strStartsWith resolvedTargetDirPath resolvedSessionPath then
        .error "Invalid path"
      else
        match fs.rm targetDirPath with
        | .error e => .error e
        | .ok _ => .ok [Effect.rm targetDirPath]

/-- The guard condition actually tested inside `deleteSessionFolder`
(sessions.js line 191): both resolutions succeed and the resolved target
starts with the resolved root. -/
def pathGuardApproves (fs : Fs) (root sid : String) : Bool :=
  match fs.realpath (sessionDirPath root sid), fs.realpath root with
  | .ok t, .ok r => strStartsWith t r
  | _, _ => false

/-- Modelled from the spec (§4.1 PathGuard contract, and C1): the intended
check — the resolved target must have the resolved root **extended by a
path separator** as a prefix. -/
def specPathGuardApproves (fs : Fs) (root sid : String) : Bool :=
  match fs.realpath (sessionDirPath root sid), fs.realpath root with
  | .ok t, .ok r => strStartsWith t (r ++ "/")
  | _, _ => false

/-- `deleteSession(sessionId, validation)` (sessions.js lines 202-219),
returning the ordered effect trace, the registry afterwards, and the
propagated error message if the operation threw.

Traced from the source:
* line 204: `validation.success` → `await sessions.get(sessionId).logout()`
  (a `TypeError` if the id has no entry: `undefined.logout()`).
* line 208: `validation.message === 'session_not_connected'` →
  `await sessions.get(sessionId).destroy()` (same `TypeError` hazard), then
  `await deleteSessionFolder(sessionId)`, then `sessions.delete(sessionId)`.
* otherwise: no action.
* lines 215-218: any error is logged and rethrown. -/
def deleteSession (fs : Fs) (root : String) (reg : Registry) (sid : String)
    (validation : ValidationResult) :
    List Effect × Registry × Option String :=
  if validation.success then
    match mapGet reg sid with
    | none => ([], reg, some "TypeError: Cannot read properties of undefined (reading logout)")
    | some c =>
      match c.logoutResult with
      | .error e => ([Effect.logout sid], reg, some e)
      | .ok _ => ([Effect.logout sid], reg, none)
  else if validation.message = "session_not_connected" then
    match mapGet reg sid with
    | none => ([], reg, some "TypeError: Cannot read properties of undefined (reading destroy)")
    | some c =>
      match c.destroyResult with
      | .error e => ([Effect.destroy sid], reg, some e)
      | .ok _ =>
        match deleteSessionFolder fs root sid with
        | .error e => ([Effect.destroy sid], reg, some e)
        | .ok fx =>
          (Effect.destroy sid :: fx ++ [Effect.mapDelete sid],
            mapDelete reg sid, none)
  else
    ([], reg, none)

/-- The `{ success, message, client }` record returned by `setupSession`
(sessions.js lines 80 and 178). -/
structure SetupResult where
  success : Bool
  message : String
  client : Option Client
deriving Repr, DecidableEq

/-- `setupSession(sessionId)` (sessions.js lines 77-182): if an entry
already exists, report failure with an "already exists" message and the
stored handle; otherwise construct a fresh client (the construction is the
external collaborator's — here the freshly built handle is the
`newClient` argument), wire the event listeners, start initialization
(failures logged, not thrown), store it in the map and report success. -/
def setupSession (reg : Registry) (sid : String) (newClient : Client) :
    SetupResult × Registry :=
  if mapHas reg sid then
    (⟨false, "Session already exists for: " ++ sid, mapGet reg sid⟩, reg)
  else
    (⟨true, "Session initiated successfully", some newClient⟩,
      mapSet reg sid newClient)

/-- Payload of the separate `'media'` webhook event forwarded by the
message listener (sessions.js lines 137-145): either the decoded payload
from `downloadMedia()`, or the placeholder `MessageMedia(mimetype, null,
size)` carrying only the declared mimetype and size. -/
inductive MediaEvent where
  | payload (media : String)
  | placeholder (mimetype : String) (size : Nat)
deriving Repr, DecidableEq

/-- Events the message listener forwards to `triggerWebhook`. -/
inductive WebhookEvent where
  | message (sid : String)
  | media (sid : String) (e : MediaEvent)
deriving Repr, DecidableEq

/-- The `'message'` listener installed by `setupSession` (sessions.js
lines 135-146): always forward the message event; when it carries media,
forward the decoded payload as a separate `'media'` event if the
advertised size is strictly below `maxAttachmentSize`, else forward the
mimetype-and-size placeholder.  `decoded` is the value `downloadMedia()`
would return. -/
def handleMessage (maxAttachmentSize : Nat) (sid : String) (hasMedia : Bool)
    (size : Nat) (mimetype : String) (decoded : String) :
    List WebhookEvent :=
  WebhookEvent.message sid ::
    (if hasMedia then
      if size < maxAttachmentSize then
        [WebhookEvent.media sid (MediaEvent.payload decoded)]
      else
        [WebhookEvent.media sid (MediaEvent.placeholder mimetype size)]
    else [])

/-- The `/^session-(.+)$/` match used by `restoreSessions` and
`flushSessions` (sessions.js lines 62 and 229): the captured id, when the
name matches. -/
def matchSessionFile (file : String) : Option String :=
  if strStartsWith file "session-" ∧ 8 < file.data.length then
    some (strDrop file 8)
  else
    none

/-- `flushSessions(deleteOnlyInactive)` (sessions.js lines 222-242) over
an already-obtained `readdir` listing: for each name matching
`/^session-(.+)$/`, validate, and when `!deleteOnlyInactive ||
!validation.success` call `deleteSession`; the first error thrown by a
delete propagates and stops the batch.  Returns the ordered effect trace,
the list of `(sessionId, validation)` pairs `deleteSession` was invoked
on, the registry afterwards, and the propagated error if any. -/
def flushSessions (fs : Fs) (root : String) (deleteOnlyInactive : Bool) :
    List String → Registry →
    List Effect × List (String × ValidationResult) × Registry × Option String
  | [], reg => ([], [], reg, none)
  | file :: rest, reg =>
    match matchSessionFile file with
    | none => flushSessions fs root deleteOnlyInactive rest reg
    | some sid =>
      let v := (validateSession reg sid).1
      if ¬ deleteOnlyInactive ∨ ¬ v.success then
        match deleteSession fs root reg sid v with
        | (fx, reg', some e) => (fx, [(sid, v)], reg', some e)
        | (fx, reg', none) =>
          let (fx2, inv, reg'', err) :=
            flushSessions fs root deleteOnlyInactive rest reg'
          (fx ++ fx2, (sid, v) :: inv, reg'', err)
      else
        flushSessions fs root deleteOnlyInactive rest reg

/-! ### Registry lemmas -/

lemma mapHas_false_iff (reg : Registry) (sid : String) :
    mapHas reg sid = false ↔ mapGet reg sid = none := by
  cases h : mapGet reg sid <;> simp [mapHas, h]

lemma mapGet_mapSet_self (reg : Registry) (sid : String) (c : Client)
    (h : mapHas reg sid = false) :
    mapGet (mapSet reg sid c) sid = some c := by
  rw [mapHas_false_iff] at h
  induction reg with
  | nil => simp [mapGet, mapSet]
  | cons p rest ih =>
    by_cases hp : p.1 = sid
    · simp [mapGet, hp] at h
    · simp [mapGet, hp] at h
      simpa [mapSet, mapGet, hp] using ih h

lemma countKey_mapSet_self (reg : Registry) (sid : String) (c : Client) :
    countKey (mapSet reg sid c) sid = countKey reg sid + 1 := by
  induction reg with
  | nil => simp [countKey, mapSet]
  | cons p rest ih =>
    show countKey (p :: (rest ++ [(sid, c)])) sid = countKey (p :: rest) sid + 1
    simp only [countKey]
    rw [show rest ++ [(sid, c)] = mapSet rest sid c from rfl, ih]
    omega

lemma countKey_eq_zero (reg : Registry) (sid : String)
    (h : mapHas reg sid = false) : countKey reg sid = 0 := by
  rw [mapHas_false_iff] at h
  induction reg with
  | nil => simp [countKey]
  | cons p rest ih =>
    by_cases hp : p.1 = sid
    · simp [mapGet, hp] at h
    · simp [mapGet, hp] at h
      simp [countKey, hp, ih h]

/-! ### Concrete fixtures used by counterexamples and witnesses -/

/-- A handle whose state query reports a non-connected state; all its
external calls succeed. -/
def clientDead : Client :=
  ⟨.ok (), 0, .ok "OPENING", .ok (), .ok ()⟩

/-- A handle whose bounded `pupPage` wait times out but whose page later
becomes evaluable and reports `CONNECTED`. -/
def timeoutClient : Client :=
  ⟨.error "Timed out waiting for nested object", 0, .ok "CONNECTED",
    .ok (), .ok ()⟩

/-- A connected handle. -/
def clientLive : Client :=
  ⟨.ok (), 1, .ok "CONNECTED", .ok (), .ok ()⟩

/-- A handle whose `getState()` rejects. -/
def clientStateThrows : Client :=
  ⟨.ok (), 0, .error "Protocol error: Session closed.", .ok (), .ok ()⟩

/-- A handle whose `destroy()` rejects. -/
def clientDestroyThrows : Client :=
  ⟨.ok (), 0, .ok "OPENING", .ok (), .error "destroy failed"⟩

/-- Filesystem where `/data/sessions/session-a` exists and resolves, as
usual, to itself (no symlinks). -/
def fsGood : Fs :=
  { realpath := fun p =>
      if p = "/data/sessions/session-a/" then .ok "/data/sessions/session-a"
      else if p = "/data/sessions" then .ok "/data/sessions"
      else .error "ENOENT: no such file or directory"
    rm := fun _ => .ok () }

/-- Filesystem where `/data/sessions/session-a` is a symlink whose
canonical path is the sibling directory `/data/sessions-evil`, outside the
sessions root. -/
def fsSibling : Fs :=
  { realpath := fun p =>
      if p = "/data/sessions/session-a/" then .ok "/data/sessions-evil"
      else if p = "/data/sessions" then .ok "/data/sessions"
      else .error "ENOENT: no such file or directory"
    rm := fun _ => .ok () }

/-- Filesystem where every resolution fails (e.g. the session directory
was never created). -/
def fsEnoent : Fs :=
  { realpath := fun _ => .error "ENOENT: no such file or directory"
    rm := fun _ => .ok () }

/-- Claim C7: `setupSession` is idempotent — starting from a registry
without the id, the first call registers the fresh handle; the second call
reports failure with the "already exists" message, returns the handle the
first call registered, leaves the registry unchanged, and the registry
holds exactly one entry for the id. -/
theorem setupSession_idempotent (reg0 : Registry) (sid : String)
    (c c' : Client) (h : mapHas reg0 sid = false) :
    (setupSession reg0 sid c).1.client = some c ∧
    setupSession (setupSession reg0 sid c).2 sid c' =
      (⟨false, "Session already exists for: " ++ sid, some c⟩,
        (setupSession reg0 sid c).2) ∧
    countKey (setupSession (setupSession reg0 sid c).2 sid c').2 sid = 1 := by
  have h1 : setupSession reg0 sid c =
      (⟨true, "Session initiated successfully", some c⟩, mapSet reg0 sid c) := by
    simp [setupSession, h]
  have h2 : mapHas (mapSet reg0 sid c) sid = true := by
    simp [mapHas, mapGet_mapSet_self reg0 sid c h]
  refine ⟨by simp [h1], ?_, ?_⟩
  · rw [h1]
    simp [setupSession, h2, mapGet_mapSet_self reg0 sid c h]
  · rw [h1]
    simp only [setupSession, h2, if_true]
    rw [countKey_mapSet_self, countKey_eq_zero reg0 sid h]

/-- Witness for C7 at a concrete registry and id. -/
theorem setupSession_idempotent_witness :
    mapHas [] "abc" = false ∧
    ((setupSession [] "abc" clientLive).1.client = some clientLive ∧
      setupSession (setupSession [] "abc" clientLive).2 "abc" clientDead =
        (⟨false, "Session already exists for: " ++ "abc", some clientLive⟩,
          (setupSession [] "abc" clientLive).2) ∧
      countKey (setupSession (setupSession [] "abc" clientLive).2 "abc"
        clientDead).2 "abc" = 1) :=
  ⟨by decide, setupSession_idempotent [] "abc" clientLive clientDead (by decide)⟩

/-- Claim C5: `deleteSession` with a success validation result leaves the
registry unchanged, produces no effect other than the logout request, and
when the id is live and logout succeeds its whole behaviour is that single
logout request with no error. -/
theorem deleteSession_connected_frame (fs : Fs) (root : String)
    (reg : Registry) (sid : String) (v : ValidationResult)
    (hv : v.success = true) :
    (deleteSession fs root reg sid v).2.1 = reg ∧
    (∀ e ∈ (deleteSession fs root reg sid v).1, e = Effect.logout sid) ∧
    (∀ c, mapGet reg sid = some c → c.logoutResult = .ok () →
      deleteSession fs root reg sid v = ([Effect.logout sid], reg, none)) := by
  cases hg : mapGet reg sid with
  | none => simp [deleteSession, hv, hg]
  | some c =>
    cases hl : c.logoutResult with
    | error e => simp [deleteSession, hv, hg, hl]
    | ok u =>
      cases u
      simp [deleteSession, hv, hg, hl]

/-- Witness for C5 at a concrete registry and client. -/
theorem deleteSession_connected_frame_witness :
    (⟨true, some "CONNECTED", "session_connected"⟩ : ValidationResult).success
        = true ∧
    ((deleteSession fsGood "/data/sessions" [("a", clientLive)] "a"
        ⟨true, some "CONNECTED", "session_connected"⟩).2.1
        = [("a", clientLive)] ∧
      (∀ e ∈ (deleteSession fsGood "/data/sessions" [("a", clientLive)] "a"
        ⟨true, some "CONNECTED", "session_connected"⟩).1,
        e = Effect.logout "a") ∧
      (∀ c, mapGet [("a", clientLive)] "a" = some c →
        c.logoutResult = .ok () →
        deleteSession fsGood "/data/sessions" [("a", clientLive)] "a"
          ⟨true, some "CONNECTED", "session_connected"⟩ =
          ([Effect.logout "a"], [("a", clientLive)], none))) :=
  ⟨by decide, deleteSession_connected_frame fsGood "/data/sessions"
    [("a", clientLive)] "a" ⟨true, some "CONNECTED", "session_connected"⟩ rfl⟩

/-- Claim C9: any exception the external client raises after the
not-found check — in this model, a `getState()` rejection, the one
exception that reaches the outer catch — is converted by `validateSession`
into `{ success: false, state: null, message: the error text }` rather
than escaping. -/
theorem validateSession_catches_errors (reg : Registry) (sid : String)
    (c : Client) (e : String) (hc : mapGet reg sid = some c)
    (he : c.getState = .error e) :
    (validateSession reg sid).1 = ⟨false, none, e⟩ := by
  simp [validateSession, hc, he]

/-- Witness for C9 at a concrete registry and client. -/
theorem validateSession_catches_errors_witness :
    mapGet [("a", clientStateThrows)] "a" = some clientStateThrows ∧
    clientStateThrows.getState = .error "Protocol error: Session closed." ∧
    (validateSession [("a", clientStateThrows)] "a").1 =
      ⟨false, none, "Protocol error: Session closed."⟩ :=
  ⟨by decide, by decide,
    validateSession_catches_errors [("a", clientStateThrows)] "a"
      clientStateThrows "Protocol error: Session closed." (by decide) (by decide)⟩

/-- Claim C6: for a message that carries media, the forwarded `media`
event holds the decoded payload exactly when the advertised size is
strictly below the configured threshold, and otherwise the placeholder
with only the declared mimetype and size. -/
theorem handleMessage_threshold (maxSize : Nat) (sid : String) (size : Nat)
    (mimetype decoded : String) :
    handleMessage maxSize sid true size mimetype decoded =
      [WebhookEvent.message sid,
        if size < maxSize then
          WebhookEvent.media sid (MediaEvent.payload decoded)
        else
          WebhookEvent.media sid (MediaEvent.placeholder mimetype size)] := by
  by_cases hs : size < maxSize <;> simp [handleMessage, hs]

/-- Witness for C6 at the spec scenario: declared media size 5MB with a
10MB threshold forwards the decoded payload; with a 1MB threshold it
forwards only the mimetype-and-size placeholder. -/
theorem handleMessage_threshold_witness :
    handleMessage (10 * 1024 * 1024) "s" true (5 * 1024 * 1024)
        "image/jpeg" "DECODED" =
      [WebhookEvent.message "s",
        WebhookEvent.media "s" (MediaEvent.payload "DECODED")] ∧
    handleMessage (1024 * 1024) "s" true (5 * 1024 * 1024)
        "image/jpeg" "DECODED" =
      [WebhookEvent.message "s",
        WebhookEvent.media "s"
          (MediaEvent.placeholder "image/jpeg" (5 * 1024 * 1024))] := by
  constructor <;> rw [handleMessage_threshold] <;> norm_num

/-! ### PathGuard lemmas -/

lemma deleteSessionFolder_of_approves (fs : Fs) (root sid : String)
    (hg : pathGuardApproves fs root sid = true)
    (hrm : fs.rm (sessionDirPath root sid) = .ok ()) :
    deleteSessionFolder fs root sid =
      .ok [Effect.rm (sessionDirPath root sid)] := by
  unfold pathGuardApproves at hg
  cases ht : fs.realpath (sessionDirPath root sid) with
  | error e => rw [ht] at hg; simp at hg
  | ok t =>
    cases hr : fs.realpath root with
    | error e => rw [ht, hr] at hg; simp at hg
    | ok r =>
      rw [ht, hr] at hg
      simp only [] at hg
      simp [deleteSessionFolder, ht, hr, hg, hrm]

lemma approves_of_deleteSessionFolder_ok (fs : Fs) (root sid : String)
    (fx : List Effect) (h : deleteSessionFolder fs root sid = .ok fx) :
    pathGuardApproves fs root sid = true ∧
    fx = [Effect.rm (sessionDirPath root sid)] := by
  simp only [deleteSessionFolder] at h
  cases ht : fs.realpath (sessionDirPath root sid) with
  | error e => rw [ht] at h; simp at h
  | ok t =>
    rw [ht] at h
    cases hr : fs.realpath root with
    | error e => rw [hr] at h; simp at h
    | ok r =>
      rw [hr] at h
      by_cases hsw : strStartsWith t r
      · simp only [hsw, not_true, if_neg, ite_false, ite_true] at h
        cases hrm : fs.rm (sessionDirPath root sid) with
        | error e => rw [hrm] at h; simp at h
        | ok u =>
          rw [hrm] at h
          simp at h
          exact ⟨by simp [pathGuardApproves, ht, hr, hsw], h.symm⟩
      · simp [hsw] at h

lemma approves_of_rm_mem (fs : Fs) (root : String) (reg : Registry)
    (sid : String) (v : ValidationResult) (p : String)
    (h : Effect.rm p ∈ (deleteSession fs root reg sid v).1) :
    pathGuardApproves fs root sid = true := by
  by_cases hv : v.success
  · cases hg : mapGet reg sid with
    | none => simp [deleteSession, hv, hg] at h
    | some c =>
      cases hl : c.logoutResult with
      | error e => simp [deleteSession, hv, hg, hl] at h
      | ok u => cases u; simp [deleteSession, hv, hg, hl] at h
  · by_cases hm : v.message = "session_not_connected"
    · cases hg : mapGet reg sid with
      | none => simp [deleteSession, hv, hm, hg] at h
      | some c =>
        cases hd : c.destroyResult with
        | error e => simp [deleteSession, hv, hm, hg, hd] at h
        | ok u =>
          cases u
          cases hf : deleteSessionFolder fs root sid with
          | error e => simp [deleteSession, hv, hm, hg, hd, hf] at h
          | ok fx =>
            exact (approves_of_deleteSessionFolder_ok fs root sid fx hf).1
    · simp [deleteSession, hv, hm] at h

/-- Claim C1 (recorded against the code): the prefix check in
`deleteSessionFolder` omits the separator — with the sessions root
`/data/sessions` and id `a` whose directory is a symlink resolving to the
sibling `/data/sessions-evil`, the resolved target escapes the root (it
does not extend the root by a separator, as `specPathGuardApproves`
reports), yet the function approves and performs the recursive removal
instead of failing with the InvalidPath error. -/
theorem deleteSessionFolder_escape_performed :
    deleteSessionFolder fsSibling "/data/sessions" "a" =
      .ok [Effect.rm "/data/sessions/session-a/"] ∧
    specPathGuardApproves fsSibling "/data/sessions" "a" = false ∧
    pathGuardApproves fsSibling "/data/sessions" "a" = true := by
  refine ⟨by decide, by decide, by decide⟩

/-- Claim C2 (recorded against the code): when the bounded `pupPage` wait
fails with a timeout, `validateSession` does not return the timeout
result — the catch handler's value is discarded — and the later steps
run: at a handle whose wait rejects yet whose state is CONNECTED, the
function performs the evaluation attempt and the `getState` query and
returns the session-connected result. -/
theorem validateSession_timeout_swallowed :
    timeoutClient.waitPupPage = .error "Timed out waiting for nested object" ∧
    validateSession [("s1", timeoutClient)] "s1" =
      (⟨true, some "CONNECTED", "session_connected"⟩,
        [VStep.waitPupPage, VStep.evalAttempt, VStep.getState]) := by
  refine ⟨by decide, by decide⟩

/-- Claim C3: for a live id, `deleteSession` on a `session_not_connected`
validation result destroys the handle, removes the storage directory and
removes the map entry, in that order, when the guard approves and the
calls succeed; and any removal effect it ever emits requires the PathGuard
check to have approved the path. -/
theorem deleteSession_not_connected_teardown (fs : Fs) (root : String)
    (reg : Registry) (sid : String) (c : Client) (v : ValidationResult)
    (hs : v.success = false) (hm : v.message = "session_not_connected")
    (hc : mapGet reg sid = some c) (hd : c.destroyResult = .ok ()) :
    (pathGuardApproves fs root sid = true →
      fs.rm (sessionDirPath root sid) = .ok () →
      deleteSession fs root reg sid v =
        ([Effect.destroy sid, Effect.rm (sessionDirPath root sid),
          Effect.mapDelete sid], mapDelete reg sid, none)) ∧
    (∀ p, Effect.rm p ∈ (deleteSession fs root reg sid v).1 →
      pathGuardApproves fs root sid = true) := by
  constructor
  · intro hg hrm
    have hf := deleteSessionFolder_of_approves fs root sid hg hrm
    have hv : ¬ v.success := by simp [hs]
    simp [deleteSession, hv, hm, hc, hd, hf]
  · intro p hp
    exact approves_of_rm_mem fs root reg sid v p hp

/-- Witness for C3 at a concrete filesystem, registry and client. -/
theorem deleteSession_not_connected_teardown_witness :
    (⟨false, some "OPENING", "session_not_connected"⟩ :
        ValidationResult).success = false ∧
    ((pathGuardApproves fsGood "/data/sessions" "a" = true →
      fsGood.rm (sessionDirPath "/data/sessions" "a") = .ok () →
      deleteSession fsGood "/data/sessions" [("a", clientDead)] "a"
          ⟨false, some "OPENING", "session_not_connected"⟩ =
        ([Effect.destroy "a",
          Effect.rm (sessionDirPath "/data/sessions" "a"),
          Effect.mapDelete "a"], mapDelete [("a", clientDead)] "a", none)) ∧
    (∀ p, Effect.rm p ∈ (deleteSession fsGood "/data/sessions"
        [("a", clientDead)] "a"
        ⟨false, some "OPENING", "session_not_connected"⟩).1 →
      pathGuardApproves fsGood "/data/sessions" "a" = true)) :=
  ⟨by decide, deleteSession_not_connected_teardown fsGood "/data/sessions"
    [("a", clientDead)] "a" clientDead
    ⟨false, some "OPENING", "session_not_connected"⟩
    (by decide) (by decide) (by decide) (by decide)⟩

/-- Counterexample to C8 as stated: with an empty registry and a
validation result with `success: true`, `deleteSession` does not complete
without error — the absent handle is dereferenced and a TypeError
propagates. -/
theorem deleteSession_absent_throws :
    (deleteSession fsEnoent "/data/sessions" [] "a" ⟨true, none, ""⟩).2.2 =
      some "TypeError: Cannot read properties of undefined (reading logout)" := by
  decide

/-- Claim C8 as amended: with no registry entry for the id,
`deleteSession` completes without error (and without any effect) exactly
when the validation result selects the no-action branch — neither
`success: true` nor message `session_not_connected`; in the other two
branches the absent handle is dereferenced and a TypeError propagates,
with no effect performed and the registry unchanged. -/
theorem deleteSession_absent_cases (fs : Fs) (root : String)
    (reg : Registry) (sid : String) (v : ValidationResult)
    (h1 : mapGet reg sid = none) :
    (v.success = false → v.message ≠ "session_not_connected" →
      deleteSession fs root reg sid v = ([], reg, none)) ∧
    (v.success = true →
      deleteSession fs root reg sid v = ([], reg,
        some "TypeError: Cannot read properties of undefined (reading logout)")) ∧
    (v.success = false → v.message = "session_not_connected" →
      deleteSession fs root reg sid v = ([], reg,
        some "TypeError: Cannot read properties of undefined (reading destroy)")) := by
  refine ⟨?_, ?_, ?_⟩
  · intro hs hm
    have hv : ¬ v.success := by simp [hs]
    simp [deleteSession, hv, hm]
  · intro hs
    simp [deleteSession, hs, h1]
  · intro hs hm
    have hv : ¬ v.success := by simp [hs]
    simp [deleteSession, hv, hm, h1]

/-- Witness for C8 (amended) at a concrete empty registry. -/
theorem deleteSession_absent_cases_witness :
    mapGet [] "a" = none ∧
    (((⟨false, none, "session_not_found"⟩ : ValidationResult).success = false →
      (⟨false, none, "session_not_found"⟩ : ValidationResult).message ≠
        "session_not_connected" →
      deleteSession fsEnoent "/data/sessions" [] "a"
        ⟨false, none, "session_not_found"⟩ = ([], [], none)) ∧
    ((⟨false, none, "session_not_found"⟩ : ValidationResult).success = true →
      deleteSession fsEnoent "/data/sessions" [] "a"
        ⟨false, none, "session_not_found"⟩ = ([], [],
        some "TypeError: Cannot read properties of undefined (reading logout)")) ∧
    ((⟨false, none, "session_not_found"⟩ : ValidationResult).success = false →
      (⟨false, none, "session_not_found"⟩ : ValidationResult).message =
        "session_not_connected" →
      deleteSession fsEnoent "/data/sessions" [] "a"
        ⟨false, none, "session_not_found"⟩ = ([], [],
        some "TypeError: Cannot read properties of undefined (reading destroy)"))) :=
  ⟨by decide, deleteSession_absent_cases fsEnoent "/data/sessions" [] "a"
    ⟨false, none, "session_not_found"⟩ (by decide)⟩

/-- Claim C10: in the `session_not_connected` branch of `deleteSession`,
the map entry is removed only after both the destroy and the
PathGuard-checked folder removal succeeded; if either throws — e.g. the
folder removal because `realpath` failed — the error propagates, no map
deletion happens, and the registry (with its entry for the id) is
unchanged. -/
theorem deleteSession_teardown_atomic (fs : Fs) (root : String)
    (reg : Registry) (sid : String) (c : Client) (v : ValidationResult)
    (hs : v.success = false) (hm : v.message = "session_not_connected")
    (hc : mapGet reg sid = some c) :
    (∀ e, c.destroyResult = .error e →
      deleteSession fs root reg sid v = ([Effect.destroy sid], reg, some e)) ∧
    (∀ e, c.destroyResult = .ok () → deleteSessionFolder fs root sid = .error e →
      deleteSession fs root reg sid v = ([Effect.destroy sid], reg, some e)) ∧
    (Effect.mapDelete sid ∈ (deleteSession fs root reg sid v).1 →
      c.destroyResult = .ok () ∧
      deleteSessionFolder fs root sid =
        .ok [Effect.rm (sessionDirPath root sid)]) := by
  have hv : ¬ v.success := by simp [hs]
  refine ⟨?_, ?_, ?_⟩
  · intro e hd
    simp [deleteSession, hv, hm, hc, hd]
  · intro e hd hf
    simp [deleteSession, hv, hm, hc, hd, hf]
  · intro hmem
    cases hd : c.destroyResult with
    | error e => simp [deleteSession, hv, hm, hc, hd] at hmem
    | ok u =>
      cases u
      cases hf : deleteSessionFolder fs root sid with
      | error e => simp [deleteSession, hv, hm, hc, hd, hf] at hmem
      | ok fx =>
        have hfx := (approves_of_deleteSessionFolder_ok fs root sid fx hf).2
        exact ⟨rfl, by rw [hfx]⟩

/-- Witness for C10 at a concrete registry whose client destroy rejects,
and a filesystem where resolution fails. -/
theorem deleteSession_teardown_atomic_witness :
    mapGet [("a", clientDestroyThrows)] "a" = some clientDestroyThrows ∧
    ((∀ e, clientDestroyThrows.destroyResult = .error e →
      deleteSession fsEnoent "/data/sessions" [("a", clientDestroyThrows)] "a"
          ⟨false, some "OPENING", "session_not_connected"⟩ =
        ([Effect.destroy "a"], [("a", clientDestroyThrows)], some e)) ∧
    (∀ e, clientDestroyThrows.destroyResult = .ok () →
      deleteSessionFolder fsEnoent "/data/sessions" "a" = .error e →
      deleteSession fsEnoent "/data/sessions" [("a", clientDestroyThrows)] "a"
          ⟨false, some "OPENING", "session_not_connected"⟩ =
        ([Effect.destroy "a"], [("a", clientDestroyThrows)], some e)) ∧
    (Effect.mapDelete "a" ∈ (deleteSession fsEnoent "/data/sessions"
        [("a", clientDestroyThrows)] "a"
        ⟨false, some "OPENING", "session_not_connected"⟩).1 →
      clientDestroyThrows.destroyResult = .ok () ∧
      deleteSessionFolder fsEnoent "/data/sessions" "a" =
        .ok [Effect.rm (sessionDirPath "/data/sessions" "a")])) :=
  ⟨by decide, deleteSession_teardown_atomic fsEnoent "/data/sessions"
    [("a", clientDestroyThrows)] "a" clientDestroyThrows
    ⟨false, some "OPENING", "session_not_connected"⟩
    (by decide) (by decide) (by decide)⟩

/-! ### Flush lemmas -/

lemma flush_inactive_no_success (fs : Fs) (root : String) :
    ∀ (files : List String) (reg : Registry) (sid : String)
      (v : ValidationResult),
      (sid, v) ∈ (flushSessions fs root true files reg).2.1 →
      v.success = false := by
  intro files
  induction files with
  | nil =>
    intro reg sid v h
    simp [flushSessions] at h
  | cons file rest ih =>
    intro reg sid v h
    cases hm : matchSessionFile file with
    | none =>
      rw [show flushSessions fs root true (file :: rest) reg =
          flushSessions fs root true rest reg by
        simp [flushSessions, hm]] at h
      exact ih reg sid v h
    | some sid' =>
      by_cases hv : ((validateSession reg sid').1).success
      · rw [show flushSessions fs root true (file :: rest) reg =
            flushSessions fs root true rest reg by
          simp [flushSessions, hm, hv]] at h
        exact ih reg sid v h
      · rcases hds : deleteSession fs root reg sid'
            ((validateSession reg sid').1) with ⟨fx, reg', err⟩
        cases err with
        | some e =>
          rw [show flushSessions fs root true (file :: rest) reg =
              (fx, [(sid', (validateSession reg sid').1)], reg', some e) by
            simp [flushSessions, hm, hv, hds]] at h
          simp at h
          rw [h.2]
          simpa using hv
        | none =>
          rcases hrec : flushSessions fs root true rest reg'
            with ⟨fx2, inv, reg'', err2⟩
          rw [show flushSessions fs root true (file :: rest) reg =
              (fx ++ fx2, (sid', (validateSession reg sid').1) :: inv,
                reg'', err2) by
            simp [flushSessions, hm, hv, hds, hrec]] at h
          simp at h
          rcases h with ⟨_, h2⟩ | h2
          · rw [h2]
            simpa using hv
          · exact ih reg' sid v (by rw [hrec]; exact h2)

lemma flush_all_invoked (fs : Fs) (root : String) :
    ∀ (files : List String) (reg : Registry),
      (flushSessions fs root false files reg).2.2.2 = none →
      ∀ file ∈ files, ∀ sid, matchSessionFile file = some sid →
        ∃ v, (sid, v) ∈ (flushSessions fs root false files reg).2.1 := by
  intro files
  induction files with
  | nil =>
    intro reg _ file hf
    simp at hf
  | cons file rest ih =>
    intro reg herr f hf sid hsid
    cases hm : matchSessionFile file with
    | none =>
      rw [show flushSessions fs root false (file :: rest) reg =
          flushSessions fs root false rest reg by
        simp [flushSessions, hm]] at herr ⊢
      rcases List.mem_cons.mp hf with rfl | hf2
      · rw [hm] at hsid; cases hsid
      · exact ih reg herr f hf2 sid hsid
    | some sid' =>
      rcases hds : deleteSession fs root reg sid'
          ((validateSession reg sid').1) with ⟨fx, reg', err⟩
      cases err with
      | some e =>
        rw [show flushSessions fs root false (file :: rest) reg =
            (fx, [(sid', (validateSession reg sid').1)], reg', some e) by
          simp [flushSessions, hm, hds]] at herr
        simp at herr
      | none =>
        rcases hrec : flushSessions fs root false rest reg'
          with ⟨fx2, inv, reg'', err2⟩
        rw [show flushSessions fs root false (file :: rest) reg =
            (fx ++ fx2, (sid', (validateSession reg sid').1) :: inv,
              reg'', err2) by
          simp [flushSessions, hm, hds, hrec]] at herr ⊢
        rcases List.mem_cons.mp hf with rfl | hf2
        · rw [hm] at hsid
          injection hsid with hsid
          exact ⟨(validateSession reg sid').1, by rw [hsid]; simp⟩
        · have herr2 : (flushSessions fs root false rest reg').2.2.2 = none := by
            rw [hrec]; exact herr
          obtain ⟨v, hv⟩ := ih reg' herr2 f hf2 sid hsid
          rw [hrec] at hv
          exact ⟨v, List.mem_cons_of_mem _ hv⟩

/-- Claim C4: `flushSessions` with `deleteOnlyInactive = true` never
invokes `deleteSession` on a session whose validation returned
`success: true`; with `deleteOnlyInactive = false`, when the pass
completes without a propagated error, `deleteSession` is invoked on every
session directory found in the listing — in particular on every one whose
validation did not return not-found. -/
theorem flushSessions_delete_policy (fs : Fs) (root : String)
    (files : List String) (reg : Registry) :
    (∀ sid v, (sid, v) ∈ (flushSessions fs root true files reg).2.1 →
      v.success = false) ∧
    ((flushSessions fs root false files reg).2.2.2 = none →
      ∀ file ∈ files, ∀ sid, matchSessionFile file = some sid →
        ∃ v, (sid, v) ∈ (flushSessions fs root false files reg).2.1) :=
  ⟨fun sid v h => flush_inactive_no_success fs root files reg sid v h,
    fun herr file hf sid hsid =>
      flush_all_invoked fs root files reg herr file hf sid hsid⟩

/-- Witness for C4 at a concrete listing with one disconnected session:
the non-selective pass completes and invokes deletion on it. -/
theorem flushSessions_delete_policy_witness :
    ∃ v, ("a", v) ∈ (flushSessions fsGood "/data/sessions" false
      ["session-a"] [("a", clientDead)]).2.1 :=
  (flushSessions_delete_policy fsGood "/data/sessions" ["session-a"]
      [("a", clientDead)]).2 (by decide) "session-a" (by decide) "a" (by decide)

end Sessions
